import Mathlib

/-!
Verification development for the dual-arm teleoperation controller in
`src/control/prevs/manual_minkaloha.py`.

The operator-input state (`target_l`, `target_r`, `rot_l`, `rot_r`,
`targets_updated`, gripper scalars) and the callbacks `on_scroll` /
`on_click` are embedded as pure functions on an explicit `ControlState`.
Floating-point scalars are modelled as rationals; `np.clip(v, lo, hi)`
is `min (max v lo) hi`, matching numpy's definition.

The control loop `AlohaMocapControl.run` is embedded as a state machine:
the inner `for _ in range(max_iters)` body becomes `inner_iter`, with the
external IK solver (`mink.solve_ik`, an external collaborator) supplied
as an oracle returning either a velocity vector or a fault; a fault is a
raised Python exception, so it propagates through the `Except` monad
exactly as an uncaught exception propagates through the loop.
-/

namespace ManualMinkAloha

/-- `np.clip(v, lo, hi)` = `min(max(v, lo), hi)`. -/
def clip (v lo hi : ℚ) : ℚ := min (max v lo) hi

/-- `self.delta = 0.01` (line 55). -/
def delta : ℚ := 1/100

/-- `self.x_min, self.x_max = -0.4, 0.4` (line 51). -/
def x_min : ℚ := -(2/5)

def x_max : ℚ := 2/5

/-- `self.y_min, self.y_max = -0.4, 0.4` (line 52). -/
def y_min : ℚ := -(2/5)

def y_max : ℚ := 2/5

/-- `self.z_min, self.z_max = 0.8, 1.4` (line 53). -/
def z_min : ℚ := 4/5

def z_max : ℚ := 7/5

/-- Gripper closed bound `0.002` (lines 67-68, 89-90). -/
def gripper_closed : ℚ := 1/500

/-- Gripper open bound `0.037` (lines 67-68, 89-90). -/
def gripper_open : ℚ := 37/1000

/-- A 3-dimensional position vector (`np.array([x, y, z])`). -/
structure Vec3 where
  x : ℚ
  y : ℚ
  z : ℚ
deriving DecidableEq, Repr

/-- A rotation, carried as a unit quaternion like `mink.SO3`.  The program
never applies any rotation operation to `rot_l` / `rot_r`, so only the
identity element and equality matter here. -/
structure SO3Q where
  w : ℚ
  x : ℚ
  y : ℚ
  z : ℚ
deriving DecidableEq, Repr

/-- `SO3.identity()` (lines 47-48). -/
def SO3Q.identity : SO3Q := ⟨1, 0, 0, 0⟩

/-- The operator-input state of `AlohaMocapControl` shared between the
mouse-listener thread and the control loop: `target_l`, `target_r`,
`rot_l`, `rot_r`, `targets_updated` (lines 45-49) and the gripper
scalars (lines 62-63). -/
structure ControlState where
  target_l : Vec3
  target_r : Vec3
  rot_l : SO3Q
  rot_r : SO3Q
  targets_updated : Bool
  left_gripper_pos : ℚ
  right_gripper_pos : ℚ
deriving DecidableEq, Repr

/-- The state set up by `__init__` (lines 45-63): `target_l = (-0.25, 0.0,
1.1)`, `target_r = (0.25, 0.0, 1.1)`, identity rotations, dirty flag
false, both grippers at `0.02`. -/
def initControlState : ControlState :=
  { target_l := ⟨-(1/4), 0, 11/10⟩
  , target_r := ⟨1/4, 0, 11/10⟩
  , rot_l := SO3Q.identity
  , rot_r := SO3Q.identity
  , targets_updated := false
  , left_gripper_pos := 1/50
  , right_gripper_pos := 1/50 }

/-- Lines 73-80 of `on_scroll`: the horizontal-delta branch, before any
clamping.  `dx > 0` adds `delta` to `target_l[0]` and both gripper
positions; `dx < 0` subtracts it. -/
def scroll_dx_update (dx : ℚ) (s : ControlState) : ControlState :=
  if dx > 0 then
    { s with target_l := { s.target_l with x := s.target_l.x + delta }
           , left_gripper_pos := s.left_gripper_pos + delta
           , right_gripper_pos := s.right_gripper_pos + delta }
  else if dx < 0 then
    { s with target_l := { s.target_l with x := s.target_l.x - delta }
           , left_gripper_pos := s.left_gripper_pos - delta
           , right_gripper_pos := s.right_gripper_pos - delta }
  else s

/-- Lines 82-85 of `on_scroll`: the vertical-delta branch (sign-inverted:
`dy < 0` adds `delta` to `target_l[1]`, `dy > 0` subtracts it). -/
def scroll_dy_update (dy : ℚ) (s : ControlState) : ControlState :=
  if dy < 0 then
    { s with target_l := { s.target_l with y := s.target_l.y + delta } }
  else if dy > 0 then
    { s with target_l := { s.target_l with y := s.target_l.y - delta } }
  else s

/-- The state reached inside `on_scroll` after the delta updates (lines
73-85) but before the clamps of lines 87-90: "before clamping". -/
def on_scroll_pre (dx dy : ℚ) (s : ControlState) : ControlState :=
  scroll_dy_update dy (scroll_dx_update dx s)

/-- Lines 87-92 of `on_scroll`: clamp `target_l[0]`, `target_l[1]` and both
gripper positions, then set `targets_updated = True`. -/
def scroll_clamp (s : ControlState) : ControlState :=
  { s with target_l := { s.target_l with
             x := clip s.target_l.x x_min x_max
           , y := clip s.target_l.y y_min y_max }
         , left_gripper_pos := clip s.left_gripper_pos gripper_closed gripper_open
         , right_gripper_pos := clip s.right_gripper_pos gripper_closed gripper_open
         , targets_updated := true }

/-- `on_scroll(self, x, y, dx, dy)` (lines 72-93).  The pointer
coordinates `x`, `y` are received but unused, as in the source. -/
def on_scroll (x y dx dy : ℚ) (s : ControlState) : ControlState :=
  scroll_clamp (on_scroll_pre dx dy s)

/-- The `pynput` mouse button delivered to `on_click`. -/
inductive MouseButton where
  | left
  | right
  | middle
deriving DecidableEq, Repr

/-- The value held by `target_l[2]` inside `on_click` after the button
branch (lines 97-100), before the clamp of line 102. -/
def click_z1 (button : MouseButton) (z : ℚ) : ℚ :=
  match button with
  | MouseButton.left => z + delta
  | MouseButton.right => z - delta
  | MouseButton.middle => z

/-- `on_click(self, x, y, button, pressed)` (lines 95-105): when pressed,
left button adds `delta` to `target_l[2]`, right button subtracts it,
any other button leaves it; then `target_l[2]` is clamped into
`[z_min, z_max]` and the dirty flag is set.  Releases do nothing. -/
def on_click (x y : ℚ) (button : MouseButton) (pressed : Bool) (s : ControlState) :
    ControlState :=
  if pressed then
    { s with target_l := { s.target_l with z := clip (click_z1 button s.target_l.z) z_min z_max }
           , targets_updated := true }
  else s

/-- One operator-input event: a scroll or a click callback invocation. -/
inductive InputEvent where
  | scroll (x y dx dy : ℚ)
  | click (x y : ℚ) (button : MouseButton) (pressed : Bool)
deriving DecidableEq

/-- Dispatch one input event to its callback. -/
def applyEvent (e : InputEvent) (s : ControlState) : ControlState :=
  match e with
  | InputEvent.scroll x y dx dy => on_scroll x y dx dy s
  | InputEvent.click x y b p => on_click x y b p s

/-- Apply a finite sequence of input events in order. -/
def applyEvents (es : List InputEvent) (s : ControlState) : ControlState :=
  es.foldl (fun t e => applyEvent e t) s

/-- The configured box plus gripper range from the spec: `target_l` inside
`[x_min, x_max] × [y_min, y_max] × [z_min, z_max]` and both gripper
scalars inside `[gripper_closed, gripper_open]`. -/
def inBounds (s : ControlState) : Prop :=
  x_min ≤ s.target_l.x ∧ s.target_l.x ≤ x_max ∧
  y_min ≤ s.target_l.y ∧ s.target_l.y ≤ y_max ∧
  z_min ≤ s.target_l.z ∧ s.target_l.z ≤ z_max ∧
  gripper_closed ≤ s.left_gripper_pos ∧ s.left_gripper_pos ≤ gripper_open ∧
  gripper_closed ≤ s.right_gripper_pos ∧ s.right_gripper_pos ≤ gripper_open

instance (s : ControlState) : Decidable (inBounds s) := by
  unfold inBounds; infer_instance

/-! ### The control loop of `AlohaMocapControl.run` (lines 107-224) -/

/-- `_JOINT_NAMES` (lines 17-24). -/
def _JOINT_NAMES : List String :=
  ["waist", "shoulder", "elbow", "forearm_roll", "wrist_angle", "wrist_rotate"]

/-- The exact rational value of the IEEE-754 double `np.pi` used by
`_VELOCITY_LIMITS` (line 26): `884279719003555 / 2^48`. -/
def np_pi : ℚ := 884279719003555 / 281474976710656

/-- `_VELOCITY_LIMITS = {k: np.pi for k in _JOINT_NAMES}` (line 26),
as an association list. -/
def _VELOCITY_LIMITS : List (String × ℚ) := _JOINT_NAMES.map (fun k => (k, np_pi))

/-- Association-list lookup with default `0`; every key actually looked up
below is present, so the default is never reached (a missing key would be
a `KeyError` in the Python source). -/
def lookupD (assoc : List (String × ℚ)) (k : String) : ℚ :=
  (assoc.lookup k).getD 0

/-- `left_joint_names` built by the loop at lines 115-121:
`aloha_scene/left_{n}` for each `n` in `_JOINT_NAMES`. -/
def left_joint_names : List String :=
  _JOINT_NAMES.map (fun n => "aloha_scene/left_" ++ n)

/-- `right_joint_names` built by the loop at lines 115-121. -/
def right_joint_names : List String :=
  _JOINT_NAMES.map (fun n => "aloha_scene/right_" ++ n)

/-- The `velocity_limits` dict built by the loop at lines 115-121: for each
`n` in `_JOINT_NAMES`, both `aloha_scene/left_{n}` and
`aloha_scene/right_{n}` map to `_VELOCITY_LIMITS[n]`. -/
def velocity_limits : List (String × ℚ) :=
  _JOINT_NAMES.foldl
    (fun acc n =>
      acc ++ [("aloha_scene/left_" ++ n, lookupD _VELOCITY_LIMITS n),
              ("aloha_scene/right_" ++ n, lookupD _VELOCITY_LIMITS n)])
    []

/-- A per-arm joint vector: one rational per controlled degree of freedom,
indexed in the order of `_JOINT_NAMES`. -/
def JVec : Type := Fin 6 → ℚ

/-- Modelled from the spec: the Velocity-Limit constraint variant
("Velocity-Limit (per-DOF max speed)", spec section 3; `mink.VelocityLimit`
is an external collaborator).  A velocity vector is feasible for an arm when
each named DOF's speed is at most its configured limit. -/
def velocityFeasible (lims : List (String × ℚ)) (names : List String) (v : JVec) : Prop :=
  ∀ i : Fin 6, |v i| ≤ lookupD lims (names.getD i.1 "")

/-- A fault raised by the IK solve (`mink.solve_ik` signalling QP
infeasibility or a numerical failure).  In Python this is a raised
exception. -/
inductive SolverFault where
  | infeasible
  | numerical
deriving DecidableEq, Repr

/-- Modelled from the spec: `ReducedConfiguration.integrate_inplace` lives
in `reduced_configuration.py`, which is imported at line 12 but is not under
`src/`; spec section 4.1 says `integrate(velocity, dt)` "advances `q` by
`velocity * dt`" (revolute joints integrate linearly) and "updates `dq` to
the supplied velocity".  Returns the new `(q, dq)`. -/
def integrate_inplace (q : JVec) (v : JVec) (dt : ℚ) : JVec × JVec :=
  (fun i => q i + v i * dt, v)

/-- The simulation-facing state touched by one inner iteration of the loop
(lines 192-222): the two `ReducedConfiguration`s' `q`/`dq`, the slices of
`data.qpos` / `data.qvel` / `data.ctrl` addressed by the left and right
index arrays, the two gripper actuator slots of `data.ctrl`, and counters
for the calls to `mj_step`, `viewer.sync`, `rate.sleep`, `mink.solve_ik`. -/
structure SimState where
  lq : JVec
  ldq : JVec
  rq : JVec
  rdq : JVec
  qpos_l : JVec
  qpos_r : JVec
  qvel_l : JVec
  qvel_r : JVec
  ctrl_l : JVec
  ctrl_r : JVec
  ctrl_lg : ℚ
  ctrl_rg : ℚ
  physics_steps : ℕ
  renders : ℕ
  sleeps : ℕ
  solves : ℕ

/-- `control_gripper` (lines 65-70): clamp each commanded gripper position
into `[0.002, 0.037]` and write it to the gripper actuator slot. -/
def control_gripper (l r : ℚ) (s : SimState) : SimState :=
  { s with ctrl_lg := clip l gripper_closed gripper_open
         , ctrl_rg := clip r gripper_closed gripper_open }

/-- One iteration of `for _ in range(max_iters)` (lines 192-222), with the
result of the `mink.solve_ik` call supplied as `solver_result`.  The source
wraps the call in no `try`; a solver fault is an uncaught exception, so it
propagates (`Except.error`) and none of the rest of the body runs.  On
success: `right_vel = np.zeros_like(...)` (line 202), both configurations
integrate in place (lines 204-205), the `qpos`/`qvel`/`ctrl` slices are
written (lines 207-214), `control_gripper` runs again (line 216), then
`mj_step`, `viewer.sync`, `rate.sleep` (lines 219-222). -/
def inner_iter (gl gr dt : ℚ) (solver_result : Except SolverFault JVec)
    (s : SimState) : Except SolverFault SimState :=
  match solver_result with
  | Except.error e => Except.error e
  | Except.ok left_vel =>
    let right_vel : JVec := fun _ => 0
    let lqdq := integrate_inplace s.lq left_vel dt
    let rqdq := integrate_inplace s.rq right_vel dt
    let s1 : SimState :=
      { s with lq := lqdq.1, ldq := lqdq.2, rq := rqdq.1, rdq := rqdq.2 }
    let s2 : SimState :=
      { s1 with qpos_l := s1.lq, qpos_r := s1.rq
              , qvel_l := s1.ldq, qvel_r := s1.rdq
              , ctrl_l := s1.lq, ctrl_r := s1.rq }
    let s3 := control_gripper gl gr s2
    Except.ok { s3 with physics_steps := s3.physics_steps + 1
                      , renders := s3.renders + 1
                      , sleeps := s3.sleeps + 1
                      , solves := s3.solves + 1 }

/-- The inner loop `for _ in range(max_iters)` (line 192), run for `n`
iterations.  `oracle k` is the velocity returned (or the fault raised) by
the `k`-th `mink.solve_ik` call of the run; the loop body has no `break`,
so only an exception can cut it short. -/
def inner_loop (gl gr dt : ℚ) (oracle : ℕ → Except SolverFault JVec) :
    ℕ → SimState → Except SolverFault SimState
  | 0, s => Except.ok s
  | n + 1, s =>
    match inner_iter gl gr dt (oracle s.solves) s with
    | Except.error e => Except.error e
    | Except.ok s1 => inner_loop gl gr dt oracle n s1

/-- `max_iters = 20` (line 165). -/
def max_iters : ℕ := 20

/-- `rate = RateLimiter(frequency=200.0)` (line 181): `rate.dt = 1/200`. -/
def rate_dt : ℚ := 1/200

/-- The state visible to one outer tick of the `while viewer.is_running()`
loop (lines 182-222): the shared operator-input store, the simulation
state, the target pose currently set on `l_ee_task`, the target sites
written by `update_target_sites`, and a counter of `l_ee_task.set_target`
calls made inside the loop. -/
structure LoopState where
  store : ControlState
  sim : SimState
  l_task_pos : Vec3
  l_task_rot : SO3Q
  site_l : Vec3
  site_r : Vec3
  site_rot_l : SO3Q
  site_rot_r : SO3Q
  set_target_count : ℕ

/-- `update_target_sites` (lines 231-241): write both target site positions
and orientation matrices from the given poses. -/
def update_target_sites (tl tr : Vec3) (rl rr : SO3Q) (s : LoopState) : LoopState :=
  { s with site_l := tl, site_r := tr, site_rot_l := rl, site_rot_r := rr }

/-- Lines 183-190 of the outer tick: `control_gripper` from the shared
gripper scalars, then — only when `targets_updated` is set — rebuild the
left target pose from `rot_l`/`target_l`, re-set it on `l_ee_task`,
refresh the target sites and clear the flag. -/
def outer_tick_head (s : LoopState) : LoopState :=
  let s0 : LoopState :=
    { s with sim := control_gripper s.store.left_gripper_pos s.store.right_gripper_pos s.sim }
  if s0.store.targets_updated then
    let s1 : LoopState :=
      { s0 with l_task_pos := s0.store.target_l
              , l_task_rot := s0.store.rot_l
              , set_target_count := s0.set_target_count + 1 }
    let s2 := update_target_sites s1.store.target_l s1.store.target_r
                s1.store.rot_l s1.store.rot_r s1
    { s2 with store := { s2.store with targets_updated := false } }
  else s0

/-- One full outer tick (lines 182-222): the head (gripper write + dirty
target handling) followed by `max_iters` inner iterations.  A solver fault
inside the inner loop propagates out of the tick. -/
def outer_tick (dt : ℚ) (oracle : ℕ → Except SolverFault JVec) (s : LoopState) :
    Except SolverFault LoopState :=
  let s1 := outer_tick_head s
  match inner_loop s1.store.left_gripper_pos s1.store.right_gripper_pos dt oracle
      max_iters s1.sim with
  | Except.error e => Except.error e
  | Except.ok sim1 => Except.ok { s1 with sim := sim1 }

/-- The `while viewer.is_running()` loop (lines 182-222), with `n` the
number of ticks until the viewer reports it is no longer running.  An
exception from any tick propagates (there is no `try` around the loop). -/
def run_loop (dt : ℚ) (oracle : ℕ → Except SolverFault JVec) :
    ℕ → LoopState → Except SolverFault LoopState
  | 0, s => Except.ok s
  | n + 1, s =>
    match outer_tick dt oracle s with
    | Except.error e => Except.error e
    | Except.ok s1 => run_loop dt oracle n s1

/-- Lines 182-224 of `run`: the loop, then `self.mouse_listener.stop()`.
The `stop()` call at line 224 sits after the loop with no `finally`, so it
executes only when the loop exits normally; an exception unwinds past it.
The second component records whether the mouse listener was stopped. -/
def run (dt : ℚ) (oracle : ℕ → Except SolverFault JVec) (n : ℕ) (s : LoopState) :
    Except SolverFault LoopState × Bool :=
  match run_loop dt oracle n s with
  | Except.ok s1 => (Except.ok s1, true)
  | Except.error e => (Except.error e, false)

/-- A concrete simulation state used to exercise the definitions on
explicit inputs: all vectors zero, all counters zero. -/
def simState0 : SimState :=
  { lq := fun _ => 0, ldq := fun _ => 0, rq := fun _ => 0, rdq := fun _ => 0
  , qpos_l := fun _ => 0, qpos_r := fun _ => 0
  , qvel_l := fun _ => 0, qvel_r := fun _ => 0
  , ctrl_l := fun _ => 0, ctrl_r := fun _ => 0
  , ctrl_lg := 0, ctrl_rg := 0
  , physics_steps := 0, renders := 0, sleeps := 0, solves := 0 }

/-- The loop state at entry to the `while` loop: the store as left by
`__init__`, the task target seeded from `rot_l`/`target_l` (lines 175-179),
the sites as set by `add_target_sites` (line 172). -/
def initLoopState : LoopState :=
  { store := initControlState
  , sim := simState0
  , l_task_pos := initControlState.target_l
  , l_task_rot := initControlState.rot_l
  , site_l := initControlState.target_l
  , site_r := initControlState.target_r
  , site_rot_l := initControlState.rot_l
  , site_rot_r := initControlState.rot_r
  , set_target_count := 0 }

/-! ### Fine-grained interleaving model of `on_scroll`

The callback runs on the `pynput` listener thread while the control loop
reads the same fields; no lock is taken anywhere in the source.  Each
element of `scroll_writes` is one atomic field mutation of the callback
body, in program order; applying all of them is exactly `on_scroll`. -/

/-- The individual field mutations performed by `on_scroll(x, y, dx, dy)`
(lines 73-92), in program order. -/
def scroll_writes (dx dy : ℚ) : List (ControlState → ControlState) :=
  (if dx > 0 then
    [fun s => { s with target_l := { s.target_l with x := s.target_l.x + delta } },
     fun s => { s with left_gripper_pos := s.left_gripper_pos + delta },
     fun s => { s with right_gripper_pos := s.right_gripper_pos + delta }]
   else if dx < 0 then
    [fun s => { s with target_l := { s.target_l with x := s.target_l.x - delta } },
     fun s => { s with left_gripper_pos := s.left_gripper_pos - delta },
     fun s => { s with right_gripper_pos := s.right_gripper_pos - delta }]
   else [])
  ++ (if dy < 0 then
       [fun s => { s with target_l := { s.target_l with y := s.target_l.y + delta } }]
      else if dy > 0 then
       [fun s => { s with target_l := { s.target_l with y := s.target_l.y - delta } }]
      else [])
  ++ [fun s => { s with target_l := { s.target_l with x := clip s.target_l.x x_min x_max } },
      fun s => { s with target_l := { s.target_l with y := clip s.target_l.y y_min y_max } },
      fun s => { s with left_gripper_pos := clip s.left_gripper_pos gripper_closed gripper_open },
      fun s => { s with right_gripper_pos := clip s.right_gripper_pos gripper_closed gripper_open },
      fun s => { s with targets_updated := true }]

/-- Apply a list of atomic mutations in order. -/
def applyWrites (ws : List (ControlState → ControlState)) (s : ControlState) : ControlState :=
  ws.foldl (fun t w => w t) s

/-- A concrete solver oracle that always succeeds with the zero velocity,
used to exercise the loop definitions on explicit inputs. -/
def oracle0 : ℕ → Except SolverFault JVec := fun _ => Except.ok (fun _ => 0)

/-! ### Helper lemmas -/

theorem le_clip (v lo hi : ℚ) (h : lo ≤ hi) : lo ≤ clip v lo hi :=
  le_min (le_max_right v lo) h

theorem clip_le (v lo hi : ℚ) : clip v lo hi ≤ hi :=
  min_le_right _ _

theorem clip_of_ge (v lo hi : ℚ) (hlohi : lo ≤ hi) (h : hi ≤ v) : clip v lo hi = hi := by
  unfold clip
  rw [max_eq_left (hlohi.trans h), min_eq_right h]

theorem clip_of_le (v lo hi : ℚ) (hlohi : lo ≤ hi) (h : v ≤ lo) : clip v lo hi = lo := by
  unfold clip
  rw [max_eq_right h, min_eq_left hlohi]

theorem scroll_dx_frame (dx : ℚ) (s : ControlState) :
    (scroll_dx_update dx s).target_l.y = s.target_l.y ∧
    (scroll_dx_update dx s).target_l.z = s.target_l.z ∧
    (scroll_dx_update dx s).target_r = s.target_r ∧
    (scroll_dx_update dx s).rot_l = s.rot_l ∧
    (scroll_dx_update dx s).rot_r = s.rot_r ∧
    (scroll_dx_update dx s).targets_updated = s.targets_updated := by
  unfold scroll_dx_update
  split_ifs <;> exact ⟨rfl, rfl, rfl, rfl, rfl, rfl⟩

theorem scroll_dy_frame (dy : ℚ) (s : ControlState) :
    (scroll_dy_update dy s).target_l.x = s.target_l.x ∧
    (scroll_dy_update dy s).target_l.z = s.target_l.z ∧
    (scroll_dy_update dy s).target_r = s.target_r ∧
    (scroll_dy_update dy s).rot_l = s.rot_l ∧
    (scroll_dy_update dy s).rot_r = s.rot_r ∧
    (scroll_dy_update dy s).targets_updated = s.targets_updated ∧
    (scroll_dy_update dy s).left_gripper_pos = s.left_gripper_pos ∧
    (scroll_dy_update dy s).right_gripper_pos = s.right_gripper_pos := by
  unfold scroll_dy_update
  split_ifs <;> exact ⟨rfl, rfl, rfl, rfl, rfl, rfl, rfl, rfl⟩

theorem on_scroll_fields (x y dx dy : ℚ) (s : ControlState) :
    (on_scroll x y dx dy s).target_l.x
        = clip (on_scroll_pre dx dy s).target_l.x x_min x_max ∧
    (on_scroll x y dx dy s).target_l.y
        = clip (on_scroll_pre dx dy s).target_l.y y_min y_max ∧
    (on_scroll x y dx dy s).target_l.z = s.target_l.z ∧
    (on_scroll x y dx dy s).left_gripper_pos
        = clip (on_scroll_pre dx dy s).left_gripper_pos gripper_closed gripper_open ∧
    (on_scroll x y dx dy s).right_gripper_pos
        = clip (on_scroll_pre dx dy s).right_gripper_pos gripper_closed gripper_open ∧
    (on_scroll x y dx dy s).target_r = s.target_r ∧
    (on_scroll x y dx dy s).rot_l = s.rot_l ∧
    (on_scroll x y dx dy s).rot_r = s.rot_r ∧
    (on_scroll x y dx dy s).targets_updated = true := by
  obtain ⟨hy1, hz1, hr1, hl1, hrr1, hu1⟩ := scroll_dx_frame dx s
  obtain ⟨hx2, hz2, hr2, hl2, hrr2, hu2, hg2, hh2⟩ :=
    scroll_dy_frame dy (scroll_dx_update dx s)
  refine ⟨rfl, rfl, ?_, rfl, rfl, ?_, ?_, ?_, rfl⟩
  · show (on_scroll_pre dx dy s).target_l.z = s.target_l.z
    unfold on_scroll_pre
    rw [hz2, hz1]
  · show (on_scroll_pre dx dy s).target_r = s.target_r
    unfold on_scroll_pre
    rw [hr2, hr1]
  · show (on_scroll_pre dx dy s).rot_l = s.rot_l
    unfold on_scroll_pre
    rw [hl2, hl1]
  · show (on_scroll_pre dx dy s).rot_r = s.rot_r
    unfold on_scroll_pre
    rw [hrr2, hrr1]

theorem on_click_frame (x y : ℚ) (b : MouseButton) (p : Bool) (s : ControlState) :
    (on_click x y b p s).target_l.x = s.target_l.x ∧
    (on_click x y b p s).target_l.y = s.target_l.y ∧
    (on_click x y b p s).target_r = s.target_r ∧
    (on_click x y b p s).rot_l = s.rot_l ∧
    (on_click x y b p s).rot_r = s.rot_r ∧
    (on_click x y b p s).left_gripper_pos = s.left_gripper_pos ∧
    (on_click x y b p s).right_gripper_pos = s.right_gripper_pos := by
  unfold on_click
  split_ifs <;> exact ⟨rfl, rfl, rfl, rfl, rfl, rfl, rfl⟩

theorem x_bounds_le : x_min ≤ x_max := by norm_num [x_min, x_max]

theorem y_bounds_le : y_min ≤ y_max := by norm_num [y_min, y_max]

theorem z_bounds_le : z_min ≤ z_max := by norm_num [z_min, z_max]

theorem gripper_bounds_le : gripper_closed ≤ gripper_open := by norm_num [gripper_closed, gripper_open]

theorem inBounds_applyEvent (e : InputEvent) (s : ControlState) (h : inBounds s) :
    inBounds (applyEvent e s) := by
  obtain ⟨hx1, hx2, hy1, hy2, hz1, hz2, hg1, hg2, hh1, hh2⟩ := h
  cases e with
  | scroll x y dx dy =>
    obtain ⟨fx, fy, fz, fg, fh, _, _, _, _⟩ := on_scroll_fields x y dx dy s
    show inBounds (on_scroll x y dx dy s)
    refine ⟨?_, ?_, ?_, ?_, ?_, ?_, ?_, ?_, ?_, ?_⟩
    · rw [fx]; exact le_clip _ _ _ x_bounds_le
    · rw [fx]; exact clip_le _ _ _
    · rw [fy]; exact le_clip _ _ _ y_bounds_le
    · rw [fy]; exact clip_le _ _ _
    · rw [fz]; exact hz1
    · rw [fz]; exact hz2
    · rw [fg]; exact le_clip _ _ _ gripper_bounds_le
    · rw [fg]; exact clip_le _ _ _
    · rw [fh]; exact le_clip _ _ _ gripper_bounds_le
    · rw [fh]; exact clip_le _ _ _
  | click x y b p =>
    obtain ⟨fx, fy, _, _, _, fg, fh⟩ := on_click_frame x y b p s
    show inBounds (on_click x y b p s)
    cases p with
    | false =>
      exact ⟨hx1, hx2, hy1, hy2, hz1, hz2, hg1, hg2, hh1, hh2⟩
    | true =>
      have fz : (on_click x y b true s).target_l.z
          = clip (click_z1 b s.target_l.z) z_min z_max := rfl
      refine ⟨?_, ?_, ?_, ?_, ?_, ?_, ?_, ?_, ?_, ?_⟩
      · rw [fx]; exact hx1
      · rw [fx]; exact hx2
      · rw [fy]; exact hy1
      · rw [fy]; exact hy2
      · rw [fz]; exact le_clip _ _ _ z_bounds_le
      · rw [fz]; exact clip_le _ _ _
      · rw [fg]; exact hg1
      · rw [fg]; exact hg2
      · rw [fh]; exact hh1
      · rw [fh]; exact hh2

theorem inBounds_applyEvents (es : List InputEvent) :
    ∀ s : ControlState, inBounds s → inBounds (applyEvents es s) := by
  induction es with
  | nil => intro s h; exact h
  | cons e es ih => intro s h; exact ih (applyEvent e s) (inBounds_applyEvent e s h)

theorem applyEvent_frame (e : InputEvent) (s : ControlState) :
    (applyEvent e s).target_r = s.target_r ∧
    (applyEvent e s).rot_l = s.rot_l ∧
    (applyEvent e s).rot_r = s.rot_r := by
  cases e with
  | scroll x y dx dy =>
    obtain ⟨_, _, _, _, _, hr, hl, hrr, _⟩ := on_scroll_fields x y dx dy s
    exact ⟨hr, hl, hrr⟩
  | click x y b p =>
    obtain ⟨_, _, hr, hl, hrr, _, _⟩ := on_click_frame x y b p s
    exact ⟨hr, hl, hrr⟩

theorem applyEvents_frame (es : List InputEvent) :
    ∀ s : ControlState, (applyEvents es s).target_r = s.target_r ∧
      (applyEvents es s).rot_l = s.rot_l ∧
      (applyEvents es s).rot_r = s.rot_r := by
  induction es with
  | nil => intro s; exact ⟨rfl, rfl, rfl⟩
  | cons e es ih =>
    intro s
    obtain ⟨hr1, hl1, hrr1⟩ := applyEvent_frame e s
    obtain ⟨hr2, hl2, hrr2⟩ := ih (applyEvent e s)
    exact ⟨hr2.trans hr1, hl2.trans hl1, hrr2.trans hrr1⟩

/-! ### Claim theorems: the Target Store -/

/-- C4: for every finite sequence of operator-input events starting from
the initial target position `(-0.25, 0.0, 1.1)`, after each event the left
target position lies inside the configured box (`x, y ∈ [-0.4, 0.4]`,
`z ∈ [0.8, 1.4]`) and both gripper position values lie in
`[0.002, 0.037]`. -/
theorem C4_target_box_invariant (es : List InputEvent) :
    inBounds (applyEvents es initControlState) :=
  inBounds_applyEvents es initControlState
    (by norm_num [inBounds, initControlState, x_min, x_max, y_min, y_max,
      z_min, z_max, gripper_closed, gripper_open])

/-- C10: no operator-input event ever mutates the right arm's target
position or either arm's target orientation: after any sequence of scroll
and click callbacks, `target_r` is still `(0.25, 0.0, 1.1)` and `rot_l`,
`rot_r` are still the identity rotation. -/
theorem C10_right_target_and_rotations_frozen (es : List InputEvent) :
    (applyEvents es initControlState).target_r = ⟨1/4, 0, 11/10⟩
    ∧ (applyEvents es initControlState).rot_l = SO3Q.identity
    ∧ (applyEvents es initControlState).rot_r = SO3Q.identity := by
  obtain ⟨hr, hl, hrr⟩ := applyEvents_frame es initControlState
  exact ⟨hr.trans rfl, hl.trans rfl, hrr.trans rfl⟩

/-- C5: every horizontal-scroll event with nonzero horizontal delta moves
the target X coordinate by plus or minus the fixed step `delta = 0.01`
according to the sign of the delta, and simultaneously moves both gripper
open/close amounts by the same signed step, measured before clamping
(`on_scroll_pre` is the state inside `on_scroll` before lines 87-90). -/
theorem C5_horizontal_scroll_coupling (dx dy : ℚ) (s : ControlState) (hdx : dx ≠ 0) :
    (on_scroll_pre dx dy s).target_l.x
        = s.target_l.x + (if dx > 0 then delta else -delta)
    ∧ (on_scroll_pre dx dy s).left_gripper_pos
        = s.left_gripper_pos + (if dx > 0 then delta else -delta)
    ∧ (on_scroll_pre dx dy s).right_gripper_pos
        = s.right_gripper_pos + (if dx > 0 then delta else -delta) := by
  obtain ⟨hx2, _, _, _, _, _, hg2, hh2⟩ := scroll_dy_frame dy (scroll_dx_update dx s)
  unfold on_scroll_pre
  rw [hx2, hg2, hh2]
  rcases lt_trichotomy dx 0 with h | h | h
  · rw [if_neg (by linarith : ¬ dx > 0)]
    unfold scroll_dx_update
    rw [if_neg (by linarith : ¬ dx > 0), if_pos h]
    refine ⟨?_, ?_, ?_⟩
    · show s.target_l.x - delta = s.target_l.x + -delta
      ring
    · show s.left_gripper_pos - delta = s.left_gripper_pos + -delta
      ring
    · show s.right_gripper_pos - delta = s.right_gripper_pos + -delta
      ring
  · exact absurd h hdx
  · rw [if_pos h]
    unfold scroll_dx_update
    rw [if_pos h]
    exact ⟨rfl, rfl, rfl⟩

/-- Witness for C5 at the concrete scroll event `dx = -3`, `dy = 2` from
the initial state. -/
theorem C5_horizontal_scroll_coupling_witness :
    ((-3 : ℚ) ≠ 0)
    ∧ ((on_scroll_pre (-3) 2 initControlState).target_l.x
          = initControlState.target_l.x + (if (-3 : ℚ) > 0 then delta else -delta)
       ∧ (on_scroll_pre (-3) 2 initControlState).left_gripper_pos
          = initControlState.left_gripper_pos + (if (-3 : ℚ) > 0 then delta else -delta)
       ∧ (on_scroll_pre (-3) 2 initControlState).right_gripper_pos
          = initControlState.right_gripper_pos + (if (-3 : ℚ) > 0 then delta else -delta)) :=
  ⟨by norm_num, C5_horizontal_scroll_coupling (-3) 2 initControlState (by norm_num)⟩

/-- C8: Target Store clamping is idempotent at the bounds: an update whose
delta overshoots a configured bound yields the bound value itself, and any
two deltas that overshoot the same bound from the same starting value give
the identical clamped coordinate.  `clip (v + d) lo hi` is exactly the
post-update clamp pattern of `on_scroll` / `on_click`. -/
theorem C8_clamp_idempotent (lo hi v d1 d2 : ℚ) (hlohi : lo ≤ hi) :
    (hi ≤ v + d1 → clip (v + d1) lo hi = hi)
    ∧ (v + d1 ≤ lo → clip (v + d1) lo hi = lo)
    ∧ (hi ≤ v + d1 → hi ≤ v + d2 → clip (v + d1) lo hi = clip (v + d2) lo hi)
    ∧ (v + d1 ≤ lo → v + d2 ≤ lo → clip (v + d1) lo hi = clip (v + d2) lo hi) :=
  ⟨fun h => clip_of_ge _ _ _ hlohi h,
   fun h => clip_of_le _ _ _ hlohi h,
   fun h1 h2 => (clip_of_ge _ _ _ hlohi h1).trans (clip_of_ge _ _ _ hlohi h2).symm,
   fun h1 h2 => (clip_of_le _ _ _ hlohi h1).trans (clip_of_le _ _ _ hlohi h2).symm⟩

/-- Witness for C8 on the configured X axis bounds: starting at `0.39`,
the deltas `+100` and `+0.01` both overshoot `x_max` and both clamp to
`x_max`. -/
theorem C8_clamp_idempotent_witness :
    x_min ≤ x_max
    ∧ clip ((39 : ℚ)/100 + 100) x_min x_max = x_max
    ∧ clip ((39 : ℚ)/100 + 100) x_min x_max = clip ((39 : ℚ)/100 + 1/100) x_min x_max :=
  ⟨x_bounds_le,
   (C8_clamp_idempotent x_min x_max (39/100) 100 (1/100) x_bounds_le).1
     (by norm_num [x_max]),
   ((C8_clamp_idempotent x_min x_max (39/100) 100 (1/100) x_bounds_le).2.2).1
     (by norm_num [x_max]) (by norm_num [x_max])⟩

/-! ### Helper lemmas: the control loop -/

theorem np_pi_nonneg : (0 : ℚ) ≤ np_pi := by
  norm_num [np_pi]

theorem inner_iter_ok (gl gr dt : ℚ) (v : JVec) (s : SimState) :
    ∃ s1, inner_iter gl gr dt (Except.ok v) s = Except.ok s1
      ∧ s1.ldq = v
      ∧ s1.lq = (fun i => s.lq i + v i * dt)
      ∧ s1.rdq = (fun _ => 0)
      ∧ s1.qpos_l = s1.lq ∧ s1.qvel_l = s1.ldq ∧ s1.ctrl_l = s1.lq
      ∧ s1.qpos_r = s1.rq ∧ s1.qvel_r = s1.rdq ∧ s1.ctrl_r = s1.rq
      ∧ s1.physics_steps = s.physics_steps + 1
      ∧ s1.renders = s.renders + 1
      ∧ s1.sleeps = s.sleeps + 1
      ∧ s1.solves = s.solves + 1 :=
  ⟨_, rfl, rfl, rfl, rfl, rfl, rfl, rfl, rfl, rfl, rfl, rfl, rfl, rfl, rfl⟩

theorem inner_loop_succ (gl gr dt : ℚ) (oracle : ℕ → Except SolverFault JVec)
    (n : ℕ) (s : SimState) :
    inner_loop gl gr dt oracle (n + 1) s =
      match inner_iter gl gr dt (oracle s.solves) s with
      | Except.error e => Except.error e
      | Except.ok s1 => inner_loop gl gr dt oracle n s1 := rfl

theorem inner_loop_ok (gl gr dt : ℚ) (oracle : ℕ → Except SolverFault JVec)
    (hok : ∀ k, ∃ v, oracle k = Except.ok v) :
    ∀ (n : ℕ) (s : SimState), ∃ s1,
      inner_loop gl gr dt oracle n s = Except.ok s1
      ∧ s1.physics_steps = s.physics_steps + n
      ∧ s1.renders = s.renders + n
      ∧ s1.sleeps = s.sleeps + n
      ∧ s1.solves = s.solves + n := by
  intro n
  induction n with
  | zero => intro s; exact ⟨s, rfl, rfl, rfl, rfl, rfl⟩
  | succ n ih =>
    intro s
    obtain ⟨v, hv⟩ := hok s.solves
    obtain ⟨s1, h1, _, _, _, _, _, _, _, _, hp1, hr1, hs1, hq1⟩ :=
      inner_iter_ok gl gr dt v s
    obtain ⟨s2, h2, hp2, hr2, hs2, hq2⟩ := ih s1
    refine ⟨s2, ?_, ?_, ?_, ?_, ?_⟩
    · rw [inner_loop_succ, hv, h1]
      exact h2
    · omega
    · omega
    · omega
    · omega

theorem outer_tick_head_frame (s : LoopState) :
    (outer_tick_head s).sim.solves = s.sim.solves
    ∧ (outer_tick_head s).sim.physics_steps = s.sim.physics_steps
    ∧ (outer_tick_head s).store.left_gripper_pos = s.store.left_gripper_pos
    ∧ (outer_tick_head s).store.right_gripper_pos = s.store.right_gripper_pos := by
  unfold outer_tick_head update_target_sites control_gripper
  dsimp only
  split <;> exact ⟨rfl, rfl, rfl, rfl⟩

theorem outer_tick_head_of_dirty (s : LoopState) (h : s.store.targets_updated = true) :
    (outer_tick_head s).l_task_pos = s.store.target_l
    ∧ (outer_tick_head s).l_task_rot = s.store.rot_l
    ∧ (outer_tick_head s).set_target_count = s.set_target_count + 1
    ∧ (outer_tick_head s).store.targets_updated = false
    ∧ (outer_tick_head s).site_l = s.store.target_l
    ∧ (outer_tick_head s).site_r = s.store.target_r := by
  unfold outer_tick_head update_target_sites
  dsimp only
  rw [if_pos h]
  exact ⟨rfl, rfl, rfl, rfl, rfl, rfl⟩

theorem outer_tick_head_of_clean (s : LoopState) (h : s.store.targets_updated = false) :
    (outer_tick_head s).l_task_pos = s.l_task_pos
    ∧ (outer_tick_head s).l_task_rot = s.l_task_rot
    ∧ (outer_tick_head s).set_target_count = s.set_target_count
    ∧ (outer_tick_head s).store.targets_updated = false := by
  unfold outer_tick_head
  dsimp only
  rw [if_neg (show ¬ s.store.targets_updated = true by simp [h])]
  exact ⟨rfl, rfl, rfl, h⟩

theorem outer_tick_head_flag_clear (s : LoopState) :
    (outer_tick_head s).store.targets_updated = false := by
  cases h : s.store.targets_updated with
  | false => exact (outer_tick_head_of_clean s h).2.2.2
  | true => exact (outer_tick_head_of_dirty s h).2.2.2.1

theorem outer_tick_ok (dt : ℚ) (oracle : ℕ → Except SolverFault JVec) (s : LoopState)
    (hok : ∀ k, ∃ v, oracle k = Except.ok v) :
    ∃ s1, outer_tick dt oracle s = Except.ok s1
      ∧ s1.sim.solves = s.sim.solves + max_iters
      ∧ s1.sim.physics_steps = s.sim.physics_steps + max_iters
      ∧ s1.l_task_pos = (outer_tick_head s).l_task_pos
      ∧ s1.l_task_rot = (outer_tick_head s).l_task_rot
      ∧ s1.set_target_count = (outer_tick_head s).set_target_count
      ∧ s1.store = (outer_tick_head s).store := by
  obtain ⟨hsolves, hphys, _, _⟩ := outer_tick_head_frame s
  obtain ⟨sim1, hio, hp, hr, hs, hq⟩ :=
    inner_loop_ok (outer_tick_head s).store.left_gripper_pos
      (outer_tick_head s).store.right_gripper_pos dt oracle hok max_iters
      (outer_tick_head s).sim
  refine ⟨{ outer_tick_head s with sim := sim1 }, ?_, ?_, ?_, rfl, rfl, rfl, rfl⟩
  · unfold outer_tick
    dsimp only
    rw [hio]
  · show sim1.solves = s.sim.solves + max_iters
    omega
  · show sim1.physics_steps = s.sim.physics_steps + max_iters
    omega

theorem clip_eq_self (v lo hi : ℚ) (h1 : lo ≤ v) (h2 : v ≤ hi) : clip v lo hi = v := by
  unfold clip
  rw [max_eq_left h1, min_eq_left h2]

/-! ### Claim theorems: the control loop -/

/-- C2: when every IK solve of the tick succeeds, the inner loop executes
exactly `max_iters` (20) iterations — `max_iters` physics steps, renders,
sleeps and solves per outer tick, with no early exit on convergence (the
count is the same whatever velocities the solver returns) — and every
inner iteration integrates both arms, mirrors the configurations into the
`qpos`/`qvel`/`ctrl` slices, steps the physics once, syncs the viewer once
and sleeps the rate limiter once. -/
theorem C2_inner_loop_cadence (gl gr dt : ℚ) (oracle : ℕ → Except SolverFault JVec)
    (s : SimState) (hok : ∀ k, ∃ v, oracle k = Except.ok v) :
    (∃ s1, inner_loop gl gr dt oracle max_iters s = Except.ok s1
       ∧ s1.physics_steps = s.physics_steps + max_iters
       ∧ s1.renders = s.renders + max_iters
       ∧ s1.sleeps = s.sleeps + max_iters
       ∧ s1.solves = s.solves + max_iters)
    ∧ (∀ (v : JVec) (t : SimState), ∃ t1,
        inner_iter gl gr dt (Except.ok v) t = Except.ok t1
        ∧ t1.ldq = v
        ∧ t1.lq = (fun i => t.lq i + v i * dt)
        ∧ t1.rdq = (fun _ => 0)
        ∧ t1.qpos_l = t1.lq ∧ t1.qvel_l = t1.ldq ∧ t1.ctrl_l = t1.lq
        ∧ t1.qpos_r = t1.rq ∧ t1.qvel_r = t1.rdq ∧ t1.ctrl_r = t1.rq
        ∧ t1.physics_steps = t.physics_steps + 1
        ∧ t1.renders = t.renders + 1
        ∧ t1.sleeps = t.sleeps + 1
        ∧ t1.solves = t.solves + 1) :=
  ⟨inner_loop_ok gl gr dt oracle hok max_iters s,
   fun v t => inner_iter_ok gl gr dt v t⟩

/-- Witness for C2 with the always-zero-velocity oracle from the concrete
zero state, instantiating the per-iteration part at the constant-one
velocity. -/
theorem C2_inner_loop_cadence_witness :
    (∃ s1, inner_loop (1/50) (1/50) rate_dt oracle0 max_iters simState0 = Except.ok s1
       ∧ s1.physics_steps = simState0.physics_steps + max_iters
       ∧ s1.renders = simState0.renders + max_iters
       ∧ s1.sleeps = simState0.sleeps + max_iters
       ∧ s1.solves = simState0.solves + max_iters)
    ∧ (∃ t1, inner_iter (1/50) (1/50) rate_dt (Except.ok (fun _ => 1)) simState0
          = Except.ok t1
        ∧ t1.ldq = (fun _ => 1)
        ∧ t1.lq = (fun i => simState0.lq i + (fun _ : Fin 6 => (1 : ℚ)) i * rate_dt)
        ∧ t1.rdq = (fun _ => 0)
        ∧ t1.qpos_l = t1.lq ∧ t1.qvel_l = t1.ldq ∧ t1.ctrl_l = t1.lq
        ∧ t1.qpos_r = t1.rq ∧ t1.qvel_r = t1.rdq ∧ t1.ctrl_r = t1.rq
        ∧ t1.physics_steps = simState0.physics_steps + 1
        ∧ t1.renders = simState0.renders + 1
        ∧ t1.sleeps = simState0.sleeps + 1
        ∧ t1.solves = simState0.solves + 1) :=
  ⟨(C2_inner_loop_cadence (1/50) (1/50) rate_dt oracle0 simState0
      (fun _ => ⟨fun _ => 0, rfl⟩)).1,
   (C2_inner_loop_cadence (1/50) (1/50) rate_dt oracle0 simState0
      (fun _ => ⟨fun _ => 0, rfl⟩)).2 (fun _ => 1) simState0⟩

/-- C1 counterexample: at the concrete input where the very first IK solve
of a tick reports infeasibility, the outer tick evaluates to the
propagated fault — not to a successor state in which the affected arm was
integrated with zero velocity.  The fault does reach past the physics step
(no state survives the tick) and does terminate the control flow of the
loop, contradicting the claim. -/
theorem C1_zero_velocity_fallback_counterexample :
    outer_tick rate_dt (fun _ => Except.error SolverFault.infeasible) initLoopState
      = Except.error SolverFault.infeasible := rfl

/-- C1 amended: the control loop contains no handler for IK solver faults.
When `mink.solve_ik` raises, the fault propagates out of the inner loop
unchanged — no zero-velocity substitution happens for the affected arm,
no state (and hence no physics step) is produced for that tick, and the
loop terminates.  (The right arm's zero velocity at line 202 is
unconditional, not a fault response.) -/
theorem C1_fault_propagates (gl gr dt : ℚ) (e : SolverFault) (n : ℕ) (s : SimState)
    (hn : 0 < n) :
    inner_loop gl gr dt (fun _ => Except.error e) n s = Except.error e := by
  cases n with
  | zero => exact absurd hn (by norm_num)
  | succ n => rfl

/-- Witness for C1's amended theorem: a full 20-iteration inner loop fed a
permanently infeasible solver from the zero state. -/
theorem C1_fault_propagates_witness :
    0 < max_iters
    ∧ inner_loop (1/50) (1/50) rate_dt (fun _ => Except.error SolverFault.infeasible)
        max_iters simState0 = Except.error SolverFault.infeasible :=
  ⟨by norm_num [max_iters],
   C1_fault_propagates (1/50) (1/50) rate_dt SolverFault.infeasible max_iters simState0
     (by norm_num [max_iters])⟩

/-- C7 counterexample: on the exit path where the first tick raises a
solver fault, `run` terminates with the exception and the mouse listener
has NOT been stopped (second component `false`): line 224 is skipped when
an exception unwinds the loop, contradicting "stopped on every exit
path". -/
theorem C7_listener_leak_counterexample :
    run rate_dt (fun _ => Except.error SolverFault.infeasible) 1 initLoopState
      = (Except.error SolverFault.infeasible, false) := rfl

/-- C7 amended: the mouse listener is stopped exactly on the normal exit
path — when the `while viewer.is_running()` loop finishes because the
viewer closed.  On the exception path the `stop()` call at line 224 is
skipped, so the listener is not stopped. -/
theorem C7_listener_stopped_iff_normal_exit (dt : ℚ)
    (oracle : ℕ → Except SolverFault JVec) (n : ℕ) (s : LoopState) :
    (run dt oracle n s).2 = true ↔ ∃ s1, run_loop dt oracle n s = Except.ok s1 := by
  unfold run
  cases h : run_loop dt oracle n s with
  | ok s1 => simp
  | error e => simp

/-- C3: the velocity limits built by `run` assign `np.pi` to each of the
six named joints of each arm, and for any solver output that satisfies
the Velocity-Limit constraint rows handed to the solver, the integrated
joint velocities (`dq` written to `qvel`) stay within the per-DOF limit on
both arms — the passive right arm trivially so. -/
theorem C3_velocity_limit_safety (gl gr dt : ℚ) (v : JVec) (s : SimState)
    (hfeas : velocityFeasible velocity_limits left_joint_names v) :
    ∃ s1, inner_iter gl gr dt (Except.ok v) s = Except.ok s1
      ∧ (∀ i : Fin 6,
          |s1.ldq i| ≤ lookupD velocity_limits (left_joint_names.getD i.1 "")
          ∧ |s1.rdq i| ≤ lookupD velocity_limits (right_joint_names.getD i.1 ""))
      ∧ (∀ i : Fin 6,
          lookupD velocity_limits (left_joint_names.getD i.1 "") = np_pi
          ∧ lookupD velocity_limits (right_joint_names.getD i.1 "") = np_pi) := by
  have hlimits : ∀ i : Fin 6,
      lookupD velocity_limits (left_joint_names.getD i.1 "") = np_pi
      ∧ lookupD velocity_limits (right_joint_names.getD i.1 "") = np_pi := by
    intro i
    fin_cases i <;> exact ⟨rfl, rfl⟩
  obtain ⟨s1, h1, hldq, _, hrdq, _⟩ := inner_iter_ok gl gr dt v s
  refine ⟨s1, h1, ?_, hlimits⟩
  intro i
  constructor
  · rw [hldq]
    exact hfeas i
  · have h0 : s1.rdq i = 0 := by rw [hrdq]
    rw [h0, abs_zero, (hlimits i).2]
    exact np_pi_nonneg

/-- Witness for C3 at the zero solver output from the zero state. -/
theorem C3_velocity_limit_safety_witness :
    velocityFeasible velocity_limits left_joint_names (fun _ => 0)
    ∧ (∃ s1, inner_iter (1/50) (1/50) rate_dt (Except.ok (fun _ => 0)) simState0
          = Except.ok s1
        ∧ (∀ i : Fin 6,
            |s1.ldq i| ≤ lookupD velocity_limits (left_joint_names.getD i.1 "")
            ∧ |s1.rdq i| ≤ lookupD velocity_limits (right_joint_names.getD i.1 ""))
        ∧ (∀ i : Fin 6,
            lookupD velocity_limits (left_joint_names.getD i.1 "") = np_pi
            ∧ lookupD velocity_limits (right_joint_names.getD i.1 "") = np_pi)) :=
  ⟨by intro i; fin_cases i <;> exact (by norm_num [np_pi] : |(0 : ℚ)| ≤ np_pi),
   C3_velocity_limit_safety (1/50) (1/50) rate_dt (fun _ => 0) simState0
     (by intro i; fin_cases i <;> exact (by norm_num [np_pi] : |(0 : ℚ)| ≤ np_pi))⟩

/-- C6: on each outer tick the left target pose is rebuilt and re-set on
the left end-effector task exactly when `targets_updated` was true at the
start of the tick (the set-target counter increments iff the flag was
set, and the task target is untouched when it was clear); afterwards the
flag is clear; and the IK solve runs `max_iters` times on the tick
regardless of the flag's value. -/
theorem C6_dirty_flag_protocol (dt : ℚ) (oracle : ℕ → Except SolverFault JVec)
    (s : LoopState) (hok : ∀ k, ∃ v, oracle k = Except.ok v) :
    (s.store.targets_updated = true →
       (outer_tick_head s).l_task_pos = s.store.target_l
       ∧ (outer_tick_head s).l_task_rot = s.store.rot_l
       ∧ (outer_tick_head s).set_target_count = s.set_target_count + 1)
    ∧ (s.store.targets_updated = false →
       (outer_tick_head s).l_task_pos = s.l_task_pos
       ∧ (outer_tick_head s).l_task_rot = s.l_task_rot
       ∧ (outer_tick_head s).set_target_count = s.set_target_count)
    ∧ (outer_tick_head s).store.targets_updated = false
    ∧ (∃ s1, outer_tick dt oracle s = Except.ok s1
         ∧ s1.sim.solves = s.sim.solves + max_iters) := by
  refine ⟨?_, ?_, outer_tick_head_flag_clear s, ?_⟩
  · intro h
    obtain ⟨h1, h2, h3, _⟩ := outer_tick_head_of_dirty s h
    exact ⟨h1, h2, h3⟩
  · intro h
    obtain ⟨h1, h2, h3, _⟩ := outer_tick_head_of_clean s h
    exact ⟨h1, h2, h3⟩
  · obtain ⟨s1, h1, h2, _⟩ := outer_tick_ok dt oracle s hok
    exact ⟨s1, h1, h2⟩

/-- Witness for C6 with the zero-velocity oracle from the initial loop
state. -/
theorem C6_dirty_flag_protocol_witness :
    (initLoopState.store.targets_updated = true →
       (outer_tick_head initLoopState).l_task_pos = initLoopState.store.target_l
       ∧ (outer_tick_head initLoopState).l_task_rot = initLoopState.store.rot_l
       ∧ (outer_tick_head initLoopState).set_target_count
           = initLoopState.set_target_count + 1)
    ∧ (initLoopState.store.targets_updated = false →
       (outer_tick_head initLoopState).l_task_pos = initLoopState.l_task_pos
       ∧ (outer_tick_head initLoopState).l_task_rot = initLoopState.l_task_rot
       ∧ (outer_tick_head initLoopState).set_target_count
           = initLoopState.set_target_count)
    ∧ (outer_tick_head initLoopState).store.targets_updated = false
    ∧ (∃ s1, outer_tick rate_dt oracle0 initLoopState = Except.ok s1
         ∧ s1.sim.solves = initLoopState.sim.solves + max_iters) :=
  C6_dirty_flag_protocol rate_dt oracle0 initLoopState (fun _ => ⟨fun _ => 0, rfl⟩)

/-! ### Claim theorems: concurrency of the Target Store -/

/-- The small-step decomposition `scroll_writes` is faithful: running all
of a scroll event's atomic writes in order is exactly `on_scroll`. -/
theorem scroll_writes_complete (x y dx dy : ℚ) (s : ControlState) :
    applyWrites (scroll_writes dx dy) s = on_scroll x y dx dy s := by
  unfold applyWrites scroll_writes on_scroll scroll_clamp on_scroll_pre
    scroll_dy_update scroll_dx_update
  split_ifs <;> rfl

/-- After only the first atomic write of the scroll event `dx = 1`,
`dy = -1` (the `target_l[0] += delta` of line 74), the store holds the
updated X with everything else still old. -/
theorem torn_scroll_state (s : ControlState) :
    (applyWrites ((scroll_writes 1 (-1)).take 1) s).target_l
      = ⟨s.target_l.x + delta, s.target_l.y, s.target_l.z⟩ := by
  unfold scroll_writes
  rw [if_pos (show (1 : ℚ) > 0 by norm_num)]
  rfl

/-- A reader interleaved after the first atomic write of a scroll event
observes a left-target position equal neither to the pre-event value nor
to the post-event value: a torn read. -/
theorem torn_scroll_write (s : ControlState)
    (h1 : y_min ≤ s.target_l.y + delta) (h2 : s.target_l.y + delta ≤ y_max) :
    (applyWrites ((scroll_writes 1 (-1)).take 1) s).target_l ≠ s.target_l
    ∧ (applyWrites ((scroll_writes 1 (-1)).take 1) s).target_l
        ≠ (on_scroll 0 0 1 (-1) s).target_l := by
  have htorn := torn_scroll_state s
  obtain ⟨_, fy, _⟩ := on_scroll_fields 0 0 1 (-1) s
  have hpre_y : (on_scroll_pre 1 (-1) s).target_l.y = s.target_l.y + delta := by
    unfold on_scroll_pre scroll_dy_update
    rw [if_pos (show (-1 : ℚ) < 0 by norm_num)]
    show (scroll_dx_update 1 s).target_l.y + delta = s.target_l.y + delta
    rw [(scroll_dx_frame 1 s).1]
  have hfin : (on_scroll 0 0 1 (-1) s).target_l.y = s.target_l.y + delta := by
    rw [fy, hpre_y, clip_eq_self _ _ _ h1 h2]
  constructor
  · intro h
    rw [htorn] at h
    have hx : s.target_l.x + delta = s.target_l.x := congrArg Vec3.x h
    have hd : delta = 0 := by linarith
    norm_num [delta] at hd
  · intro h
    have hy := congrArg Vec3.y h
    rw [htorn, hfin] at hy
    have hy2 : s.target_l.y = s.target_l.y + delta := hy
    have hd : delta = 0 := by linarith
    norm_num [delta] at hd

/-- C9 counterexample: from the initial state, the interleaving in which
the control loop reads the target between the first and second atomic
writes of the scroll event `dx = 1`, `dy = -1` observes a target position
that matches neither the state before the event nor the state after it —
a torn read is possible, contradicting the claimed guarded read. -/
theorem C9_torn_read_counterexample :
    (applyWrites ((scroll_writes 1 (-1)).take 1) initControlState).target_l
        ≠ initControlState.target_l
    ∧ (applyWrites ((scroll_writes 1 (-1)).take 1) initControlState).target_l
        ≠ (on_scroll 0 0 1 (-1) initControlState).target_l :=
  torn_scroll_write initControlState
    (by norm_num [y_min, initControlState, delta])
    (by norm_num [y_max, initControlState, delta])

/-- C9 amended: nothing guards the Target Store — `on_scroll` mutates the
shared fields one at a time with no lock or atomic swap, so a control-loop
read interleaved between the component writes of a single scroll event
can observe a target position equal to neither the pre-event nor the
post-event value (a torn read), whenever the event's Y update is not
clamped away. -/
theorem C9_unguarded_store_torn_read (s : ControlState)
    (h1 : y_min ≤ s.target_l.y + delta) (h2 : s.target_l.y + delta ≤ y_max) :
    (applyWrites ((scroll_writes 1 (-1)).take 1) s).target_l ≠ s.target_l
    ∧ (applyWrites ((scroll_writes 1 (-1)).take 1) s).target_l
        ≠ (on_scroll 0 0 1 (-1) s).target_l :=
  torn_scroll_write s h1 h2

/-- Witness for C9's amended theorem at a state with the target well
inside the box. -/
theorem C9_unguarded_store_torn_read_witness :
    (y_min ≤ (⟨0, 0, 1⟩ : Vec3).y + delta ∧ (⟨0, 0, 1⟩ : Vec3).y + delta ≤ y_max)
    ∧ ((applyWrites ((scroll_writes 1 (-1)).take 1)
          { initControlState with target_l := ⟨0, 0, 1⟩ }).target_l
        ≠ ({ initControlState with target_l := ⟨0, 0, 1⟩ } : ControlState).target_l
       ∧ (applyWrites ((scroll_writes 1 (-1)).take 1)
            { initControlState with target_l := ⟨0, 0, 1⟩ }).target_l
        ≠ (on_scroll 0 0 1 (-1) { initControlState with target_l := ⟨0, 0, 1⟩ }).target_l) :=
  ⟨⟨by norm_num [y_min, delta], by norm_num [y_max, delta]⟩,
   C9_unguarded_store_torn_read { initControlState with target_l := ⟨0, 0, 1⟩ }
     (by norm_num [y_min, delta]) (by norm_num [y_max, delta])⟩

end ManualMinkAloha
